import Mathlib

/-!
Verification of the profile authenticity scoring pipeline of the
fake-profile-detection service (`app/services/analyzer_service.py`).

Counts (`followers`, `following`, `posts`, `account_age_days`) are modelled
as naturals: every producer of a `ProfileData` record (the scraper, the
simulator, the feature pipeline) yields nonnegative counts, matching the
data model (`int ≥ 0`).  Python floats are idealised as rationals; `round(x, 2)`
is modelled as rounding `x * 100` to the nearest integer and dividing by 100.
-/

/-- Raw profile attributes handed to the scoring pipeline
(`profile_data` dict in `analyzer_service.py`).  `bio` is nullable. -/
structure ProfileData where
  username : String
  followers : Nat
  following : Nat
  posts : Nat
  account_age_days : Nat
  bio : Option String
  has_profile_pic : Bool
  deriving DecidableEq

/-- `AnalyzerService._heuristic_analysis`: sequential penalties from 100,
floor at 0, then the three risk tiers. -/
def heuristic_analysis (d : ProfileData) : Int × String :=
  let score : Int := 100
  let score := if d.followers < 10 then score - 20 else score
  let score := if d.following > d.followers * 5 then score - 30 else score
  let score := if !d.has_profile_pic then score - 20 else score
  let score := if d.posts < 3 then score - 15 else score
  let score := max 0 score
  if score ≥ 80 then (score, "LOW RISK - Likely Authentic")
  else if score ≥ 50 then (score, "MEDIUM RISK - Suspicious")
  else (score, "HIGH RISK - Likely Fake")

/-- C1: the heuristic branch starts at 100, subtracts 20 when
`followers < 10`, 30 when `following > followers * 5`, 20 when the profile
has no picture and 15 when `posts < 3`, clamps the result to `[0, 100]`,
and classifies LOW when the score is ≥ 80, MEDIUM when ≥ 50, HIGH below. -/
theorem heuristic_analysis_spec (d : ProfileData) :
    (heuristic_analysis d).1 =
      min 100 (max 0 (100
        - (if d.followers < 10 then 20 else 0)
        - (if d.following > d.followers * 5 then 30 else 0)
        - (if d.has_profile_pic then 0 else 20)
        - (if d.posts < 3 then 15 else 0))) ∧
    (heuristic_analysis d).2 =
      (if (heuristic_analysis d).1 ≥ 80 then "LOW RISK - Likely Authentic"
       else if (heuristic_analysis d).1 ≥ 50 then "MEDIUM RISK - Suspicious"
       else "HIGH RISK - Likely Fake") := by
  by_cases h1 : d.followers < 10 <;>
    by_cases h2 : d.following > d.followers * 5 <;>
      by_cases h3 : d.has_profile_pic <;>
        by_cases h4 : d.posts < 3 <;>
          simp [heuristic_analysis, h1, h2, h3, h4]

/-- The fixed profile used by the heuristic-fallback test vector:
no picture, 5 followers, 30 following, 1 post. -/
def fallbackProbe : ProfileData :=
  { username := "probe"
    followers := 5
    following := 30
    posts := 1
    account_age_days := 365
    bio := some ""
    has_profile_pic := false }

/-- C2 counterexample: on the probe profile the ratio penalty also fires
(30 > 5 * 5), so the heuristic score is 15, not the claimed 45. -/
theorem fallbackProbe_not_45 :
    (heuristic_analysis fallbackProbe).1 = 15 ∧
    (heuristic_analysis fallbackProbe).1 ≠ 45 := by
  decide

/-- C2 (amended): on the probe profile all four penalties fire —
-20 (followers < 10), -30 (30 > 5·5), -20 (no picture), -15 (posts < 3) —
so the heuristic score is 100 - 20 - 30 - 20 - 15 = 15 and the risk is HIGH. -/
theorem fallbackProbe_heuristic :
    heuristic_analysis fallbackProbe =
      (100 - 20 - 30 - 20 - 15, "HIGH RISK - Likely Fake") := by
  decide

/-- Python `str.lower()`: lowercase every character.  (Stated over the
character list so that concrete instances evaluate by `decide`.) -/
def pyLower (s : String) : String := String.mk (s.data.map Char.toLower)

/-- Substring test: does `kw` occur as a contiguous substring of `text`?
Models the Python `kw in text` operator on strings. -/
def strContainsSub (text kw : String) : Bool :=
  let t := text.toList
  let k := kw.toList
  (List.range (t.length + 1)).any (fun i => (t.drop i).take k.length == k)

/-- Two-decimal rounding, modelling Python `round(x, 2)`.  Every value this
service rounds has an exact two-decimal representation, so the tie-breaking
rule never matters and round-half-up is a faithful model. -/
def round2 (q : ℚ) : ℚ := ((⌊q * 100 + 1/2⌋ : ℤ) : ℚ) / 100

/-- Python `min(a, b)`: the first argument wins ties. -/
def pyMin (a b : ℚ) : ℚ := if a ≤ b then a else b

theorem pyMin_eq_min (a b : ℚ) : pyMin a b = min a b := (min_def a b).symm

/-- The red flags `analyze_manual` can append, in the order the code
checks them.  `bioScam` carries the scam keywords found in the bio. -/
inductive RedFlag where
  | noPic
  | followRatio
  | zeroPosts
  | numericUsername
  | bioScam (found : List String)
  deriving DecidableEq

/-- The fixed scam-keyword set checked against the bio in `analyze_manual`. -/
def bio_scams : List String :=
  ["crypto", "invest", "cashapp", "lottery", "sugar daddy", "help me"]

/-- The red-flag list built by `AnalyzerService.analyze_manual`. -/
def manualRedFlags (followers following posts : Int) (bio : String)
    (no_pic digits : Bool) : List RedFlag :=
  (if no_pic then [RedFlag.noPic] else [])
  ++ (if followers < 50 ∧ following > 500 then [RedFlag.followRatio] else [])
  ++ (if posts = 0 then [RedFlag.zeroPosts] else [])
  ++ (if digits then [RedFlag.numericUsername] else [])
  ++ (match bio_scams.filter (fun kw => strContainsSub (pyLower bio) kw) with
      | [] => []
      | found => [RedFlag.bioScam found])

/-- Result payload of the manual audit (`score` object of `analyze_manual`). -/
structure ManualResult where
  final_score : ℚ
  risk_level : String
  red_flags : List RedFlag
  recommendations : List String
  deriving DecidableEq

/-- Scoring body of `AnalyzerService.analyze_manual`, after the numeric
fields have been coerced: red flags, fake probability, final score,
risk tier and its fixed recommendation list. -/
def analyzeManualCore (followers following posts : Int) (bio : String)
    (no_pic digits : Bool) : ManualResult :=
  let red_flags := manualRedFlags followers following posts bio no_pic digits
  let fake_prob : ℚ := pyMin (1/5 + (red_flags.length : ℚ) * (3/20)) (19/20)
  let final_score := round2 ((1 - fake_prob) * 100)
  if fake_prob > 7/10 then
    { final_score := final_score
      risk_level := "HIGH RISK - Likely Fake"
      red_flags := red_flags
      recommendations := ["Do not engage with this account.",
        "Report for impersonation/spam.", "Block immediately."] }
  else if fake_prob > 2/5 then
    { final_score := final_score
      risk_level := "MEDIUM RISK - Suspicious"
      red_flags := red_flags
      recommendations := ["Exercise caution before sharing any info.",
        "Check if you have mutual friends.", "Verify identity via another platform."] }
  else
    { final_score := final_score
      risk_level := "LOW RISK - Likely Authentic"
      red_flags := red_flags
      recommendations := ["Account shows normal patterns.",
        "Still, never share passwords or OTPs."] }

/-- The fake probability the specification prescribes for a manual audit
that raised `n` red flags: `min(0.2 + 0.15·n, 0.95)`. -/
def specFakeProb (n : ℕ) : ℚ := min (1/5 + (3/20) * (n : ℚ)) (19/20)

/-- C3: for every manual-audit input, with `n` the number of red flags the
fake probability is `min(0.2 + 0.15·n, 0.95)`, the final score is
`round((1-p)·100, 2)` and the risk tier and its fixed recommendation list
follow the `p > 0.7` / `p > 0.4` thresholds. -/
theorem analyzeManualCore_spec (followers following posts : Int) (bio : String)
    (no_pic digits : Bool) :
    (analyzeManualCore followers following posts bio no_pic digits).final_score =
      round2 ((1 - specFakeProb
        (analyzeManualCore followers following posts bio no_pic digits).red_flags.length) * 100) ∧
    (analyzeManualCore followers following posts bio no_pic digits).risk_level =
      (if specFakeProb
          (analyzeManualCore followers following posts bio no_pic digits).red_flags.length
          > 7/10 then "HIGH RISK - Likely Fake"
       else if specFakeProb
          (analyzeManualCore followers following posts bio no_pic digits).red_flags.length
          > 2/5 then "MEDIUM RISK - Suspicious"
       else "LOW RISK - Likely Authentic") ∧
    (analyzeManualCore followers following posts bio no_pic digits).recommendations =
      (if specFakeProb
          (analyzeManualCore followers following posts bio no_pic digits).red_flags.length
          > 7/10 then ["Do not engage with this account.",
          "Report for impersonation/spam.", "Block immediately."]
       else if specFakeProb
          (analyzeManualCore followers following posts bio no_pic digits).red_flags.length
          > 2/5 then ["Exercise caution before sharing any info.",
          "Check if you have mutual friends.", "Verify identity via another platform."]
       else ["Account shows normal patterns.",
          "Still, never share passwords or OTPs."]) := by
  have hmul : ∀ n : ℚ, 1/5 + n * (3/20) = 1/5 + (3/20) * n := by
    intro n; ring_nf
  simp only [analyzeManualCore, specFakeProb, hmul, pyMin_eq_min]
  split_ifs <;> simp_all

/-- Evaluation of the manual audit on the §8 test-vector input: the code
raises only the no-picture and numeric-username flags there. -/
theorem manualAudit_example_eval :
    analyzeManualCore 120 2000 5 "DM for collab" true true =
      { final_score := 50
        risk_level := "MEDIUM RISK - Suspicious"
        red_flags := [RedFlag.noPic, RedFlag.numericUsername]
        recommendations := ["Exercise caution before sharing any info.",
          "Check if you have mutual friends.", "Verify identity via another platform."] } := by
  have hrf : manualRedFlags 120 2000 5 "DM for collab" true true
      = [RedFlag.noPic, RedFlag.numericUsername] := by decide
  simp only [analyzeManualCore, hrf]
  norm_num [pyMin, round2]

/-- C4 counterexample: on `{followers:120, following:2000, posts:5,
bio:"DM for collab", noPic:true, digits:true}` the ratio flag does NOT fire
(the code requires `followers < 50 AND following > 500`, and 120 ≥ 50), so
only two red flags are raised and the final score is 50, not 35. -/
theorem manualAudit_example_not_three_flags :
    (analyzeManualCore 120 2000 5 "DM for collab" true true).red_flags.length = 2 ∧
    (analyzeManualCore 120 2000 5 "DM for collab" true true).red_flags
      = [RedFlag.noPic, RedFlag.numericUsername] ∧
    (analyzeManualCore 120 2000 5 "DM for collab" true true).final_score ≠ 35 := by
  rw [manualAudit_example_eval]
  exact ⟨rfl, rfl, by norm_num⟩

/-- C4 (amended): that input triggers exactly two red flags — no profile
picture and digits in username; the high-ratio flag needs `followers < 50`,
which 120 fails — so `redFlagCount = 2`, `fakeProb = 0.5`,
`finalScore = 50.0`, risk MEDIUM. -/
theorem manualAudit_example_result :
    analyzeManualCore 120 2000 5 "DM for collab" true true =
      { final_score := 50
        risk_level := "MEDIUM RISK - Suspicious"
        red_flags := [RedFlag.noPic, RedFlag.numericUsername]
        recommendations := ["Exercise caution before sharing any info.",
          "Check if you have mutual friends.", "Verify identity via another platform."] } :=
  manualAudit_example_eval

/-- A value looked up from the manual-audit request dict: the key can be
absent, hold something `int()` accepts, or hold something `int()` rejects. -/
inductive FieldVal where
  | missing
  | num (n : Int)
  | nonNumeric (s : String)
  deriving DecidableEq

/-- `int(data.get(key, 0))`: an absent key defaults to 0, a numeric value is
taken as-is, and a non-numeric value makes `int()` raise `ValueError`. -/
def coerceInt : FieldVal → Except String Int
  | FieldVal.missing => Except.ok 0
  | FieldVal.num n => Except.ok n
  | FieldVal.nonNumeric s => Except.error ("invalid literal for int: " ++ s)

/-- Raw manual-audit request body. -/
structure ManualInput where
  followers : FieldVal
  following : FieldVal
  posts : FieldVal
  bio : Option String
  no_pic : Bool
  digits : Bool
  deriving DecidableEq

/-- `AnalyzerService.analyze_manual`, including its try/except wrapper: any
exception inside the body is caught and turned into an error payload
(`{'error': str(e)}`) instead of a score result. -/
def analyze_manual (input : ManualInput) : Except String ManualResult := do
  let followers ← coerceInt input.followers
  let following ← coerceInt input.following
  let posts ← coerceInt input.posts
  let bio := input.bio.getD ""
  Except.ok (analyzeManualCore followers following posts bio input.no_pic input.digits)

/-- True when the field holds a value `int()` would reject. -/
def FieldVal.isNonNumeric : FieldVal → Bool
  | FieldVal.nonNumeric _ => true
  | _ => false

/-- C8 counterexample: a non-numeric `followers` field is not coerced to a
default — `int()` raises, the handler catches it, and the audit returns an
error payload instead of a well-formed score result. -/
theorem analyze_manual_nonNumeric_errors :
    analyze_manual
      { followers := FieldVal.nonNumeric "abc"
        following := FieldVal.missing
        posts := FieldVal.missing
        bio := none
        no_pic := false
        digits := false } =
      Except.error ("invalid literal for int: " ++ "abc") := by
  rfl

/-- C8 (amended): missing fields are coerced to safe defaults (0 for the
numeric fields, empty string for the bio) and the audit then returns a
well-formed score result; but a non-numeric numeric field makes the body
raise, and the caught exception yields an error payload, not a score.
The operation never propagates an exception either way. -/
theorem analyze_manual_defaults (input : ManualInput)
    (hf : input.followers.isNonNumeric = false)
    (hg : input.following.isNonNumeric = false)
    (hp : input.posts.isNonNumeric = false) :
    (analyze_manual input).isOk = true ∧
    analyze_manual
      { input with
          followers := FieldVal.missing
          following := FieldVal.missing
          posts := FieldVal.missing
          bio := none } =
      Except.ok (analyzeManualCore 0 0 0 "" input.no_pic input.digits) := by
  refine ⟨?_, rfl⟩
  cases hfv : input.followers <;> cases hgv : input.following <;>
    cases hpv : input.posts <;>
      simp_all [analyze_manual, coerceInt, FieldVal.isNonNumeric, Except.isOk,
        Except.toBool, bind, Except.bind]

/-- Closed instance of the amended C8 theorem at the all-missing input. -/
theorem analyze_manual_defaults_witness :
    (FieldVal.missing.isNonNumeric = false) ∧
    ((analyze_manual
      { followers := FieldVal.missing
        following := FieldVal.missing
        posts := FieldVal.missing
        bio := none
        no_pic := true
        digits := false }).isOk = true) := by
  refine ⟨by decide, ?_⟩
  exact (analyze_manual_defaults
    { followers := FieldVal.missing
      following := FieldVal.missing
      posts := FieldVal.missing
      bio := none
      no_pic := true
      digits := false } rfl rfl rfl).1

/-- The three fixed scam-keyword categories of `analyze_message`. -/
def scam_categories : List (String × List String) :=
  [("Financial", ["lottery", "winner", "prize", "won", "cash app", "gift card",
      "bitcoin", "crypto", "investment", "forex", "binance", "inheritance",
      "beneficiary", "fund", "wallet"]),
   ("Urgency/Fear", ["urgent", "act now", "verify", "suspended", "unauthorized",
      "bank account", "police", "legal action", "compromised"]),
   ("Social Engineering", ["dm me", "promotion", "ambassador", "model", "collab",
      "link in bio", "sugar baby", "send pic"])]

/-- Result of the message scan (`analyze_message` response). -/
structure MessageResult where
  score : Int
  risk_level : String
  advice : String
  deriving DecidableEq

/-- `AnalyzerService.analyze_message`: lowercase the text, collect the matched
keywords of every category, then score, risk label and advice per tier. -/
def analyze_message (text : String) : MessageResult :=
  let t := pyLower text
  let all_triggered_kws :=
    (scam_categories.map (fun ck => ck.2.filter (fun kw => strContainsSub t kw))).flatten
  let score : Int :=
    if all_triggered_kws.length ≥ 4 then 95
    else if all_triggered_kws.length ≥ 2 then 65
    else if all_triggered_kws.length ≥ 1 then 35
    else 10
  let risk_level :=
    if score > 80 then "HIGH" else if score > 50 then "MEDIUM" else "LOW"
  let advice :=
    if risk_level = "HIGH" then
      "This is almost certainly a scam. Do not click links or provide info."
    else if risk_level = "MEDIUM" then
      "Suspicious message. Scammers often use these phrases. Be careful."
    else "No obvious scam patterns detected."
  { score := score, risk_level := risk_level, advice := advice }

/-- The total number of keywords of the three fixed scam categories matched
as case-insensitive substrings of the message. -/
def totalMatchedKeywords (text : String) : ℕ :=
  (scam_categories.map
    (fun ck => (ck.2.filter (fun kw => strContainsSub (pyLower text) kw)).length)).sum

/-- C5: with `k` the total number of scam-category keywords matched as
case-insensitive substrings of the message, the scan score is 95 when
`k ≥ 4`, 65 when `2 ≤ k < 4`, 35 when `k = 1` and 10 when `k = 0`, and the
risk label is HIGH exactly when the score exceeds 80, MEDIUM exactly when
it lies in `(50, 80]`, LOW otherwise. -/
theorem analyze_message_spec (text : String) :
    (analyze_message text).score =
      (if totalMatchedKeywords text ≥ 4 then 95
       else if totalMatchedKeywords text ≥ 2 then 65
       else if totalMatchedKeywords text ≥ 1 then 35 else 10) ∧
    ((analyze_message text).risk_level = "HIGH" ↔ (analyze_message text).score > 80) ∧
    ((analyze_message text).risk_level = "MEDIUM" ↔
      (50 < (analyze_message text).score ∧ (analyze_message text).score ≤ 80)) ∧
    ((analyze_message text).risk_level = "LOW" ↔ (analyze_message text).score ≤ 50) := by
  have hlen :
      ((scam_categories.map
        (fun ck => ck.2.filter (fun kw => strContainsSub (pyLower text) kw))).flatten).length
      = (scam_categories.map
        (fun ck => (ck.2.filter (fun kw => strContainsSub (pyLower text) kw)).length)).sum := by
    rw [List.length_flatten, List.map_map]
    rfl
  simp only [analyze_message, totalMatchedKeywords, hlen]
  split_ifs <;> simp_all

/-- Outcome of the classifier stage of `AnalyzerService.analyze`: either no
model was loaded, or the loaded model returned class probabilities, or the
loaded model's `predict_proba` call raised. -/
inductive MLOutcome where
  | noModel
  | predicted (realProb fakeProb : ℚ)
  | predictionFailed
  deriving DecidableEq

/-- Truthiness of `self.model` at response-building time. -/
def modelLoaded : MLOutcome → Bool
  | MLOutcome.noModel => false
  | _ => true

/-- True when the final score came from `_heuristic_analysis` rather than
from the classifier's probabilities. -/
def heuristicProduced : MLOutcome → Bool
  | MLOutcome.predicted _ _ => false
  | _ => true

/-- The `(final_score, risk_level, fake_prob)` triple computed by the scoring
section of `AnalyzerService.analyze`: classifier branch on success, heuristic
fallback when the model is absent or its prediction raised (the exception is
caught inside `analyze`). -/
def computeScore (m : MLOutcome) (d : ProfileData) : ℚ × String × ℚ :=
  match m with
  | MLOutcome.predicted realProb fakeProb =>
      (round2 (realProb * 100),
       if fakeProb > 7/10 then "HIGH RISK - Likely Fake"
       else if fakeProb > 2/5 then "MEDIUM RISK - Suspicious"
       else "LOW RISK - Likely Authentic",
       fakeProb)
  | _ =>
      (((heuristic_analysis d).1 : ℚ), (heuristic_analysis d).2,
       1 - ((heuristic_analysis d).1 : ℚ) / 100)

/-- The `ml_version` field of the response built by `analyze`. -/
def ml_version (m : MLOutcome) : String :=
  if modelLoaded m then "1.0.0" else "heuristic-fallback"

/-- C6: when the classifier's prediction raises, `analyze` catches the
exception locally and returns exactly what the no-model heuristic branch
returns — the heuristic score and risk level, with
`fakeProbability = 1 - finalScore/100` — so the failure never reaches the
caller as anything but a normal result. -/
theorem predictionFailure_falls_back (d : ProfileData) :
    computeScore MLOutcome.predictionFailed d = computeScore MLOutcome.noModel d ∧
    (computeScore MLOutcome.predictionFailed d).1 = ((heuristic_analysis d).1 : ℚ) ∧
    (computeScore MLOutcome.predictionFailed d).2.1 = (heuristic_analysis d).2 ∧
    (computeScore MLOutcome.predictionFailed d).2.2 =
      1 - (computeScore MLOutcome.predictionFailed d).1 / 100 :=
  ⟨rfl, rfl, rfl, rfl⟩

/-- Profile used to exhibit the scoring branch taken on prediction failure. -/
def mlProbe : ProfileData :=
  { username := "user123"
    followers := 0
    following := 0
    posts := 0
    account_age_days := 1
    bio := none
    has_profile_pic := false }

/-- C7 counterexample: when a loaded classifier's prediction fails, the
heuristic branch produces the final score, yet `ml_version` is still the
model version string "1.0.0", not "heuristic-fallback" — so `ml_version`
does not identify which branch produced the result. -/
theorem mlVersion_misreports_failed_prediction :
    computeScore MLOutcome.predictionFailed mlProbe =
      (((heuristic_analysis mlProbe).1 : ℚ), (heuristic_analysis mlProbe).2,
        1 - ((heuristic_analysis mlProbe).1 : ℚ) / 100) ∧
    heuristicProduced MLOutcome.predictionFailed = true ∧
    ml_version MLOutcome.predictionFailed = "1.0.0" ∧
    ml_version MLOutcome.predictionFailed ≠ "heuristic-fallback" :=
  ⟨rfl, rfl, rfl, by decide⟩

/-- C7 (amended): `ml_version` reports whether a classifier is loaded, not
which branch produced the score: it is "1.0.0" exactly when a model is
loaded and "heuristic-fallback" exactly when none is; on a loaded model
whose prediction fails it stays "1.0.0" although the heuristic produced
the score. -/
theorem mlVersion_tracks_model_load (m : MLOutcome) :
    (ml_version m = "heuristic-fallback" ↔ modelLoaded m = false) ∧
    (ml_version m = "1.0.0" ↔ modelLoaded m = true) := by
  cases m <;> constructor <;> simp [ml_version, modelLoaded]

/-- `AnalyzerService._analyze_network`: subscore from the follower count. -/
def _analyze_network (d : ProfileData) : Int :=
  let score : Int := 100
  let score :=
    if d.followers < 10 then score - 40
    else if d.followers < 100 then score - 10
    else score
  max 0 score

/-- `AnalyzerService._analyze_behavior`: subscore from the post count. -/
def _analyze_behavior (d : ProfileData) : Int :=
  let score : Int := 100
  let score := if d.posts = 0 then score - 30 else score
  let score := if d.posts < 5 then score - 10 else score
  max 0 score

/-- C9: two profiles that differ only in the bio field get identical network
and behavior subscores — the bio never reaches those analyzers. -/
theorem subscores_ignore_bio (d : ProfileData) (b : Option String) :
    _analyze_network { d with bio := b } = _analyze_network d ∧
    _analyze_behavior { d with bio := b } = _analyze_behavior d :=
  ⟨rfl, rfl⟩

/-- The fixed-order numeric feature vector fed to the classifier
(`features_dict` in `_prepare_features`). -/
structure FeatureVector where
  followers : Nat
  following : Nat
  posts : Nat
  account_age : Nat
  bio_length : Nat
  has_profile_pic : Nat
  username_has_digits : Nat
  follower_ratio : ℚ
  deriving DecidableEq

/-- `AnalyzerService._prepare_features`: raw attributes to feature vector.
A `None` bio is treated as the empty string; the follower ratio divides by
`following + 1`. -/
def _prepare_features (d : ProfileData) (username : String) : FeatureVector :=
  { followers := d.followers
    following := d.following
    posts := d.posts
    account_age := d.account_age_days
    bio_length := (d.bio.getD "").length
    has_profile_pic := if d.has_profile_pic then 1 else 0
    username_has_digits := if username.data.any Char.isDigit then 1 else 0
    follower_ratio := (d.followers : ℚ) / ((d.following : ℚ) + 1) }

/-- C10: the feature extractor computes
`followerRatio = followers / (following + 1)`; the denominator is never
zero, and at `followers = 0, following = 0` the ratio is 0. -/
theorem prepare_features_ratio (d : ProfileData) (u : String) :
    (_prepare_features d u).follower_ratio
      = (d.followers : ℚ) / ((d.following : ℚ) + 1) ∧
    ((d.following : ℚ) + 1) ≠ 0 ∧
    (_prepare_features { d with followers := 0, following := 0 } u).follower_ratio = 0 := by
  refine ⟨rfl, ?_, ?_⟩
  · have h : (0 : ℚ) < (d.following : ℚ) + 1 := by positivity
    exact h.ne'
  · simp [_prepare_features]
